import Mathlib

/-!
Verification development for the hanafi_fiqh_qa backend service.

The repository's HTTP transport layer (api/http/router.go, api/http/server.go)
is embedded directly from the source.  The core components it calls
(CredentialHasher, TokenService, AuthService, UserUsecases, the error
package) live under internal/ and are not among the provided source files;
they are modelled from the specification, as marked on each definition.
All machine integers are modelled as Nat (Go ints are non-negative ids and
timestamps here); byte strings are lists of Nat with values below 256.
-/

namespace HanafiFiqhQa

/-- Error kinds of the service.  The first six are the transport-level
taxonomy of spec section 7; the last three are the TokenService verification
failures of spec section 4.2. -/
inductive ErrorKind where
  | badRequest
  | invalidCredentials
  | conflict
  | notFound
  | unauthorized
  | internal
  | malformedToken
  | invalidSignature
  | expired
deriving DecidableEq, Repr

/-- Modelled from the spec: an error value distinguished by kind tag with an
attached detail message (spec section 9, internal/base/errors is not under
the provided sources). -/
structure AppError where
  kind : ErrorKind
  detail : String
deriving DecidableEq, Repr

/-- Kind of the error carried by a failed computation, if any. -/
def errKind {α : Type} : Except AppError α → Option ErrorKind
  | .error e => some e.kind
  | .ok _ => none

/-! ## CredentialHasher

Modelled from the spec (section 4.1; internal/base/crypto is not under the
provided sources).  The spec demands that Verify(p, Hash(p)) holds and that
Verify(p x, Hash(p)) fails for every p x distinct from p: a collision-free
digest.  We model the idealised hasher whose digest is determined exactly by
the pair (salt, plaintext); the salt is the internally generated randomness,
passed here as an explicit oracle argument.  One-wayness is a computational
property outside the model. -/

/-- Modelled from the spec: a salted password digest. -/
structure PasswordHash where
  salt : Nat
  digest : String
deriving DecidableEq, Repr

/-- Modelled from the spec: Hash(plaintext) with the salt drawn from the
hasher's internal randomness, here an explicit argument. -/
def Hash (salt : Nat) (plaintext : String) : PasswordHash :=
  { salt := salt, digest := plaintext }

/-- Modelled from the spec: Verify(plaintext, hash), true exactly when the
plaintext is the one the digest was derived from. -/
def VerifyPassword (plaintext : String) (h : PasswordHash) : Bool :=
  plaintext == h.digest

/-! ## TokenService

Modelled from the spec (section 4.2; the token implementation is not under
the provided sources).  A token is a byte string: an 8-byte little-endian
user id, an 8-byte little-endian absolute expiry (issuance time + TTL), and
a 1-byte keyed checksum standing in for the cryptographic signature — for
the single-byte tamper detection the spec promises, a sum modulo 256 over
the payload already detects every single-byte change.  Verification checks
structure, then signature, then expiry, and is pure. -/

/-- Little-endian base-256 encoding of a Nat into a fixed number of bytes. -/
def natToBytes : Nat → Nat → List Nat
  | 0, _ => []
  | k + 1, n => n % 256 :: natToBytes k (n / 256)

/-- Little-endian base-256 decoding. -/
def bytesToNat : List Nat → Nat
  | [] => 0
  | b :: bs => b + 256 * bytesToNat bs

/-- Modelled from the spec: TokenService.Issue(userId) at issuance time
now, with the process-wide signing key and fixed TTL as configuration. -/
def Issue (key ttl uid now : Nat) : List Nat :=
  let payload := natToBytes 8 uid ++ natToBytes 8 (now + ttl)
  payload ++ [(payload.sum + key) % 256]

/-- Modelled from the spec: TokenService.Verify(token) at verification time
now.  Fails with MalformedToken when structurally invalid, InvalidSignature
when the keyed checksum does not match, Expired when past the TTL. -/
def VerifyToken (key now : Nat) (t : List Nat) : Except AppError Nat :=
  if t.length = 17 then
    if t.drop 16 = [((t.take 16).sum + key) % 256] then
      if now ≤ bytesToNat ((t.drop 8).take 8) then
        .ok (bytesToNat (t.take 8))
      else
        .error { kind := .expired, detail := "token expired" }
    else
      .error { kind := .invalidSignature, detail := "invalid signature" }
  else
    .error { kind := .malformedToken, detail := "malformed token" }

/-! ## Users, AuthService and UserUsecases

Modelled from the spec (sections 3, 4.3, 4.4; internal/user and
internal/auth are not under the provided sources).  The repository state is
the list of stored user records; the transaction manager's rollback
guarantee is modelled by returning the unchanged state on every failure. -/

/-- Modelled from the spec: a stored user record.  Public fields plus the
password hash; timestamps are omitted as no claim mentions them. -/
structure User where
  id : Nat
  username : String
  passwordHash : PasswordHash
deriving DecidableEq, Repr

/-- Modelled from the spec: AuthService.Login.  Looks the user up by the
supplied identifier, verifies the plaintext password against the stored
hash, and on match issues an access token; both failure causes yield the
same InvalidCredentials error. -/
def Login (key ttl now : Nat) (store : List User) (identifier password : String) :
    Except AppError (Nat × List Nat) :=
  match store.find? (fun u => u.username == identifier) with
  | none => .error { kind := .invalidCredentials, detail := "invalid credentials" }
  | some u =>
    if VerifyPassword password u.passwordHash then
      .ok (u.id, Issue key ttl u.id now)
    else
      .error { kind := .invalidCredentials, detail := "invalid credentials" }

/-- Change-password command: the DTO bound by PATCH /users/me/password,
with Id filled in from the authenticated request context. -/
structure ChangeUserPasswordDto where
  Id : Nat
  CurrentPassword : String
  NewPassword : String
deriving DecidableEq, Repr

/-- Modelled from the spec: UserUsecases.ChangePassword inside one
transaction — load the user, verify the caller-supplied current password,
hash the new password, persist.  The salt for the new hash is the hasher's
randomness, passed as an oracle argument.  Returns the new store on
success. -/
def ChangePassword (salt : Nat) (store : List User) (dto : ChangeUserPasswordDto) :
    Except AppError (List User) :=
  match store.find? (fun u => u.id == dto.Id) with
  | none => .error { kind := .notFound, detail := "user not found" }
  | some u =>
    if VerifyPassword dto.CurrentPassword u.passwordHash then
      .ok (store.map (fun v =>
        if v.id == dto.Id then
          { v with passwordHash := Hash salt dto.NewPassword }
        else v))
    else
      .error { kind := .invalidCredentials, detail := "invalid credentials" }

/-- Modelled from the spec: ChangePassword run under the transaction
manager — on failure the transaction rolls back, so the resulting stored
state is the unchanged input store. -/
def runChangePassword (salt : Nat) (store : List User) (dto : ChangeUserPasswordDto) :
    Except AppError Unit × List User :=
  match ChangePassword salt store dto with
  | .ok s => (.ok (), s)
  | .error e => (.error e, store)

/-! ## HTTP transport layer

Embedded from api/http/router.go and api/http/server.go.  Request handling
is modelled as gin models it: a per-request context mutated by a chain of
handlers, where aborting stops the chain, and the recovery middleware turns
a panic anywhere in the rest of the chain into a 500 response. -/

/-- Data payload of a response envelope: the serialised core result. -/
inductive CoreResult where
  | userRec (id : Nat) (username : String)
  | loginRec (userId : Nat) (token : List Nat)
deriving DecidableEq, Repr

/-- Response envelope from router.go: status, message, data. -/
structure Response where
  Status : Nat
  Message : String
  Data : Option CoreResult
deriving DecidableEq, Repr

/-- Modelled from the spec: parseError of internal/base/errors (not under
the provided sources) — maps an error to its HTTP status and generic
message by kind (spec sections 6 and 7); the token verification kinds are
the Unauthorized family (missing/invalid/expired token).  The detail string
is read off the error itself by the caller. -/
def parseError (e : AppError) : Nat × String :=
  match e.kind with
  | .badRequest => (400, "bad request")
  | .invalidCredentials => (401, "invalid credentials")
  | .conflict => (409, "conflict")
  | .notFound => (404, "not found")
  | .unauthorized => (401, "unauthorized")
  | .internal => (500, "internal error")
  | .malformedToken => (401, "unauthorized")
  | .invalidSignature => (401, "unauthorized")
  | .expired => (401, "unauthorized")

/-- okResponse from router.go. -/
def okResponse (data : Option CoreResult) : Response :=
  { Status := 200, Message := "ok", Data := data }

/-- internalErrorResponse from router.go. -/
def internalErrorResponse (data : Option CoreResult) : Response :=
  { Status := 500, Message := "internal error", Data := data }

/-- errorResponse from router.go: the mapped status always; the error's
detail as message only when details are enabled and the detail is
non-empty, the generic mapped message otherwise. -/
def errorResponse (e : AppError) (data : Option CoreResult) (withDetails : Bool) :
    Response :=
  let status := (parseError e).1
  let message := if withDetails && (e.detail != "") then e.detail else (parseError e).2
  { Status := status, Message := message, Data := data }

/-- Per-request context: the trace id and user id stored by setTraceId and
setUserId, whether the request was aborted, and the response written. -/
structure Ctx where
  traceId : String
  userId : Nat
  aborted : Bool
  response : Option Response
deriving DecidableEq, Repr

/-- Outcome of one handler: a normal return with the updated context, or a
panic carrying the panic value and the context at the moment of panic. -/
inductive HOut where
  | ok (c : Ctx)
  | panicked (msg : String) (c : Ctx)
deriving DecidableEq, Repr

/-- Gin's handler chain semantics: handlers run in order; once the context
is aborted the remaining handlers are skipped; a panic propagates. -/
def runChain : List (Ctx → HOut) → Ctx → HOut
  | [], c => .ok c
  | h :: hs, c =>
    if c.aborted then .ok c
    else
      match h c with
      | .ok c' => runChain hs c'
      | .panicked v c' => .panicked v c'

/-- Recovery middleware from router.go: gin.CustomRecovery runs the rest of
the chain and, when it panics, aborts with internalErrorResponse(nil) —
regardless of the panic value and of any configuration. -/
def withRecover (rest : Ctx → HOut) (c : Ctx) : Ctx :=
  match rest c with
  | .ok c' => c'
  | .panicked _ cp =>
    { cp with aborted := true, response := some (internalErrorResponse none) }

/-- authenticate from router.go: verifies the Authorization header token;
on failure it aborts with the mapped error response, and — faithful to the
missing return statement in the source — still stores the zero-valued user
id; on success it stores the resolved user id in the context.  The token
verification of authService.VerifyAccessToken is the spec-modelled
VerifyToken. -/
def authenticate (key now : Nat) (withDetails : Bool) (token : List Nat) :
    Ctx → HOut := fun c =>
  match VerifyToken key now token with
  | .error e =>
    .ok { c with
            aborted := true,
            response := some (errorResponse e none withDetails),
            userId := 0 }
  | .ok uid => .ok { c with userId := uid }

/-- trace middleware from router.go: the Trace-Id header when non-empty,
otherwise a freshly generated UUID (crypto.GenerateUUID is not under the
provided sources; its output is the freshUuid oracle argument). -/
def traceMiddleware (traceIdHeader freshUuid : String) : Ctx → Ctx := fun c =>
  { c with traceId := if traceIdHeader == "" then freshUuid else traceIdHeader }

/-! ## Request bodies and DTO binding for PUT /users/me and
PATCH /users/me/password

The DTO declarations and their JSON tags live in internal/user, not under
the provided sources; binding is modelled from the spec (section 4.4):
Update applies permitted field changes, and neither the password nor the id
is a permitted (bindable) field, so a body's id field never reaches the
DTO.  The bodies below carry an explicit optional id field precisely so the
theorems can quantify over it. -/

/-- Update command: the DTO bound by PUT /users/me. -/
structure UpdateUserDto where
  Id : Nat
  Name : String
deriving DecidableEq, Repr

/-- Parsed JSON body of PUT /users/me, including a possible stray id
field. -/
structure UpdateBody where
  idField : Option Nat
  name : Option String
deriving DecidableEq, Repr

/-- Parsed JSON body of PATCH /users/me/password, including a possible
stray id field. -/
structure ChangePasswordBody where
  idField : Option Nat
  currentPassword : Option String
  newPassword : Option String
deriving DecidableEq, Repr

/-- Modelled from the spec: BindJSON into an UpdateUserDto — only the
permitted profile fields are bindable, not the id. -/
def bindUpdateUserDto (dto : UpdateUserDto) (b : UpdateBody) : UpdateUserDto :=
  { dto with Name := b.name.getD dto.Name }

/-- Modelled from the spec: BindJSON into a ChangeUserPasswordDto — the
password fields are bindable, not the id. -/
def bindChangeUserPasswordDto (dto : ChangeUserPasswordDto) (b : ChangePasswordBody) :
    ChangeUserPasswordDto :=
  { dto with
      CurrentPassword := b.currentPassword.getD dto.CurrentPassword,
      NewPassword := b.newPassword.getD dto.NewPassword }

/-- updateMe from router.go, projected onto the DTO it passes to
UserUsecases.Update: the zero-valued DTO gets its Id from the request
context, then the body is bound; a bind failure means Update is never
called (none). -/
def updateMeDto (reqUserId : Nat) (bindRes : Except AppError UpdateBody) :
    Option UpdateUserDto :=
  let dto : UpdateUserDto := { Id := reqUserId, Name := "" }
  match bindRes with
  | .error _ => none
  | .ok b => some (bindUpdateUserDto dto b)

/-- changeMyPassword from router.go, projected onto the DTO it passes to
UserUsecases.ChangePassword: the zero-valued DTO gets its Id from the
request context, then the body is bound; a bind failure means
ChangePassword is never called (none). -/
def changeMyPasswordDto (reqUserId : Nat) (bindRes : Except AppError ChangePasswordBody) :
    Option ChangeUserPasswordDto :=
  let dto : ChangeUserPasswordDto :=
    { Id := reqUserId, CurrentPassword := "", NewPassword := "" }
  match bindRes with
  | .error _ => none
  | .ok b => some (bindChangeUserPasswordDto dto b)

/-! ## Helper lemmas on the byte encoding -/

theorem length_natToBytes (k n : Nat) : (natToBytes k n).length = k := by
  induction k generalizing n with
  | zero => rfl
  | succ k ih => simp [natToBytes, ih]

theorem bytesToNat_natToBytes (k n : Nat) (h : n < 256 ^ k) :
    bytesToNat (natToBytes k n) = n := by
  induction k generalizing n with
  | zero =>
    simp [natToBytes, bytesToNat]
    omega
  | succ k ih =>
    have hdiv : n / 256 < 256 ^ k := by
      rw [Nat.div_lt_iff_lt_mul (by norm_num)]
      calc n < 256 ^ (k + 1) := h
        _ = 256 ^ k * 256 := by ring
    simp only [natToBytes, bytesToNat, ih (n / 256) hdiv]
    omega

theorem natToBytes_lt (k n : Nat) : ∀ b ∈ natToBytes k n, b < 256 := by
  induction k generalizing n with
  | zero => simp [natToBytes]
  | succ k ih =>
    intro b hb
    simp only [natToBytes, List.mem_cons] at hb
    rcases hb with h | h
    · omega
    · exact ih (n / 256) b h

theorem Issue_length (key ttl uid now : Nat) : (Issue key ttl uid now).length = 17 := by
  simp [Issue, length_natToBytes]

theorem Issue_bytes_lt (key ttl uid now : Nat) :
    ∀ b ∈ Issue key ttl uid now, b < 256 := by
  intro b hb
  simp only [Issue, List.mem_append, List.mem_singleton] at hb
  rcases hb with (h | h) | h
  · exact natToBytes_lt 8 uid b h
  · exact natToBytes_lt 8 (now + ttl) b h
  · omega

theorem VerifyToken_Issue (key ttl uid now0 now : Nat)
    (huid : uid < 256 ^ 8) (hexp : now0 + ttl < 256 ^ 8) :
    VerifyToken key now (Issue key ttl uid now0) =
      if now ≤ now0 + ttl then Except.ok uid
      else Except.error { kind := ErrorKind.expired, detail := "token expired" } := by
  have hAl : (natToBytes 8 uid).length = 8 := length_natToBytes 8 uid
  have hBl : (natToBytes 8 (now0 + ttl)).length = 8 := length_natToBytes 8 (now0 + ttl)
  have hPl : (natToBytes 8 uid ++ natToBytes 8 (now0 + ttl)).length = 16 := by
    rw [List.length_append, hAl, hBl]
  have ht : Issue key ttl uid now0 =
      (natToBytes 8 uid ++ natToBytes 8 (now0 + ttl)) ++
        [((natToBytes 8 uid ++ natToBytes 8 (now0 + ttl)).sum + key) % 256] := rfl
  have hlen : ((natToBytes 8 uid ++ natToBytes 8 (now0 + ttl)) ++
      [((natToBytes 8 uid ++ natToBytes 8 (now0 + ttl)).sum + key) % 256]).length = 17 := by
    rw [List.length_append, hPl]
    rfl
  rw [ht]
  unfold VerifyToken
  rw [List.take_left' hPl, List.drop_left' hPl, if_pos hlen, if_pos rfl,
    List.append_assoc, List.take_left' hAl, List.drop_left' hAl, List.take_left' hBl,
    bytesToNat_natToBytes 8 uid huid, bytesToNat_natToBytes 8 (now0 + ttl) hexp]

/-- C5: verifying an issued token before its expiry (issuance time plus the
TTL) returns the embedded user id; verifying after the TTL has elapsed
fails with the Expired error kind.  User ids and expiry instants are 8-byte
quantities. -/
theorem token_roundtrip_expiry (key ttl uid now0 now : Nat)
    (huid : uid < 256 ^ 8) (hexp : now0 + ttl < 256 ^ 8) :
    (now ≤ now0 + ttl → VerifyToken key now (Issue key ttl uid now0) = .ok uid) ∧
    (now0 + ttl < now →
      errKind (VerifyToken key now (Issue key ttl uid now0)) = some .expired) := by
  constructor
  · intro h
    rw [VerifyToken_Issue key ttl uid now0 now huid hexp, if_pos h]
  · intro h
    rw [VerifyToken_Issue key ttl uid now0 now huid hexp, if_neg (by omega)]
    rfl

/-- Witness for C5 at a concrete input: user id 7, issuance at time 5 with
TTL 10, verified at times 15 (inside the TTL) and 16 (past it). -/
theorem token_roundtrip_expiry_witness :
    ((15 : Nat) ≤ 5 + 10 → VerifyToken 3 15 (Issue 3 10 7 5) = .ok 7) ∧
    ((5 : Nat) + 10 < 16 → errKind (VerifyToken 3 16 (Issue 3 10 7 5)) = some .expired) :=
  ⟨(token_roundtrip_expiry 3 10 7 5 15 (by norm_num) (by norm_num)).1,
   (token_roundtrip_expiry 3 10 7 5 16 (by norm_num) (by norm_num)).2⟩

/-- C4: a password verifies against its own salted hash; any distinct
password fails against that hash; hashing the same password with two
distinct salts yields distinct digests, both of which still verify against
the original password. -/
theorem hash_roundtrip (s1 s2 : Nat) (p q : String) (hpq : q ≠ p) (hs : s1 ≠ s2) :
    VerifyPassword p (Hash s1 p) = true ∧
    VerifyPassword q (Hash s1 p) = false ∧
    Hash s1 p ≠ Hash s2 p ∧
    VerifyPassword p (Hash s2 p) = true := by
  refine ⟨?_, ?_, ?_, ?_⟩
  · simp [VerifyPassword, Hash]
  · simp only [VerifyPassword, Hash, beq_eq_false_iff_ne]
    exact hpq
  · intro h
    exact hs (congrArg PasswordHash.salt h)
  · simp [VerifyPassword, Hash]

/-- Witness for C4 at a concrete input: password "secret1", distinct
password "secret2", salts 0 and 1. -/
theorem hash_roundtrip_witness :
    VerifyPassword "secret1" (Hash 0 "secret1") = true ∧
    VerifyPassword "secret2" (Hash 0 "secret1") = false ∧
    Hash 0 "secret1" ≠ Hash 1 "secret1" ∧
    VerifyPassword "secret1" (Hash 1 "secret1") = true :=
  hash_roundtrip 0 1 "secret1" "secret2" (by decide) (by decide)

theorem take16_split (l r : List Nat) (x : Nat) (hn : l.length ≤ 15) :
    (l ++ x :: r).take 16 = l ++ x :: r.take (15 - l.length) := by
  rw [List.take_append_eq_append_take, List.take_of_length_le (by omega)]
  congr 1
  rw [show 16 - l.length = (15 - l.length) + 1 by omega, List.take_succ_cons]

theorem drop16_split (l r : List Nat) (x : Nat) (hn : l.length ≤ 15) :
    (l ++ x :: r).drop 16 = r.drop (15 - l.length) := by
  rw [List.drop_append_eq_append_drop, List.drop_eq_nil_of_le (by omega),
    show 16 - l.length = (15 - l.length) + 1 by omega, List.drop_succ_cons,
    List.nil_append]

theorem Issue_sig (key ttl uid now : Nat) :
    (Issue key ttl uid now).drop 16 =
      [(((Issue key ttl uid now).take 16).sum + key) % 256] := by
  have hPl : (natToBytes 8 uid ++ natToBytes 8 (now + ttl)).length = 16 := by
    rw [List.length_append, length_natToBytes, length_natToBytes]
  have ht : Issue key ttl uid now =
      (natToBytes 8 uid ++ natToBytes 8 (now + ttl)) ++
        [((natToBytes 8 uid ++ natToBytes 8 (now + ttl)).sum + key) % 256] := rfl
  rw [ht, List.take_left' hPl, List.drop_left' hPl]

/-- C6: any single-byte modification of an issued token — replacing the
byte at one position by a different byte value — makes verification fail
with InvalidSignature or MalformedToken; it never succeeds, so in
particular it never returns any user id. -/
theorem token_tamper_detection (key ttl uid now0 now : Nat)
    (l r : List Nat) (b c : Nat)
    (hsplit : Issue key ttl uid now0 = l ++ b :: r)
    (hc : c < 256) (hne : c ≠ b) :
    (∃ e, VerifyToken key now (l ++ c :: r) = .error e ∧
      (e.kind = .invalidSignature ∨ e.kind = .malformedToken)) ∧
    ∀ u, VerifyToken key now (l ++ c :: r) ≠ .ok u := by
  have hb : b < 256 := by
    refine Issue_bytes_lt key ttl uid now0 b ?_
    rw [hsplit]
    simp
  have hlen : (l ++ b :: r).length = 17 := by
    rw [← hsplit]
    exact Issue_length key ttl uid now0
  rw [List.length_append, List.length_cons] at hlen
  have hlenc : (l ++ c :: r).length = 17 := by
    rw [List.length_append, List.length_cons]
    omega
  have hsig : (l ++ c :: r).drop 16 ≠ [(((l ++ c :: r).take 16).sum + key) % 256] := by
    have hsplit' := Issue_sig key ttl uid now0
    rw [hsplit] at hsplit'
    rcases Nat.lt_or_ge l.length 16 with hl | hl
    · have hl15 : l.length ≤ 15 := by omega
      rw [take16_split l r b hl15, drop16_split l r b hl15] at hsplit'
      rw [take16_split l r c hl15, drop16_split l r c hl15, hsplit']
      intro hcontra
      have heq := List.head_eq_of_cons_eq hcontra
      rw [List.sum_append, List.sum_cons, List.sum_append, List.sum_cons] at heq
      omega
    · have hl16 : l.length = 16 := by omega
      have hr : r = [] := by
        rw [← List.length_eq_zero]
        omega
      subst hr
      rw [List.drop_left' hl16, List.take_left' hl16] at hsplit'
      rw [List.drop_left' hl16, List.take_left' hl16]
      have hbval : b = (l.sum + key) % 256 := List.head_eq_of_cons_eq hsplit'
      intro hcontra
      have := List.head_eq_of_cons_eq hcontra
      omega
  constructor
  · refine ⟨{ kind := .invalidSignature, detail := "invalid signature" }, ?_, Or.inl rfl⟩
    unfold VerifyToken
    rw [if_pos hlenc, if_neg hsig]
  · intro u hcontra
    unfold VerifyToken at hcontra
    rw [if_pos hlenc, if_neg hsig] at hcontra
    exact Except.noConfusion hcontra

/-- Witness for C6 at a concrete input: the token issued for user id 1 at
time 0 with TTL 10 and key 0 has first byte 1; replacing it by 2 makes
verification fail with InvalidSignature or MalformedToken and never
succeed. -/
theorem token_tamper_detection_witness :
    (∃ e, VerifyToken 0 0 ([] ++ 2 :: [0, 0, 0, 0, 0, 0, 0, 10, 0, 0, 0, 0, 0, 0, 0, 11]) =
        .error e ∧ (e.kind = .invalidSignature ∨ e.kind = .malformedToken)) ∧
    ∀ u, VerifyToken 0 0 ([] ++ 2 :: [0, 0, 0, 0, 0, 0, 0, 10, 0, 0, 0, 0, 0, 0, 0, 11]) ≠
        .ok u :=
  token_tamper_detection 0 10 1 0 0 [] [0, 0, 0, 0, 0, 0, 0, 10, 0, 0, 0, 0, 0, 0, 0, 11]
    1 2 (by decide) (by decide) (by decide)

/-- C3: a login with an identifier matching no stored user and a login with
an existing user's identifier but a non-matching password fail with the
very same InvalidCredentials error — the same error value, hence the same
kind, and never NotFound — so the two failure causes are indistinguishable
to the caller. -/
theorem login_failure_uniformity (key ttl now : Nat) (store : List User)
    (ghost pwd wrong : String) (u : User)
    (hghost : store.find? (fun v => v.username == ghost) = none)
    (hfound : store.find? (fun v => v.username == u.username) = some u)
    (hwrong : VerifyPassword wrong u.passwordHash = false) :
    Login key ttl now store ghost pwd =
      .error { kind := .invalidCredentials, detail := "invalid credentials" } ∧
    Login key ttl now store u.username wrong =
      .error { kind := .invalidCredentials, detail := "invalid credentials" } ∧
    Login key ttl now store ghost pwd = Login key ttl now store u.username wrong := by
  have h1 : Login key ttl now store ghost pwd =
      .error { kind := .invalidCredentials, detail := "invalid credentials" } := by
    simp [Login, hghost]
  have h2 : Login key ttl now store u.username wrong =
      .error { kind := .invalidCredentials, detail := "invalid credentials" } := by
    simp [Login, hfound, hwrong]
  exact ⟨h1, h2, h1.trans h2.symm⟩

/-- Witness for C3 at a concrete input: one user "amina" with password
"pw"; logging in as the unknown "ghost" and as "amina" with the wrong
password "x" yield the identical InvalidCredentials error. -/
theorem login_failure_uniformity_witness :
    Login 0 10 0 [{ id := 1, username := "amina", passwordHash := Hash 0 "pw" }] "ghost" "x" =
      .error { kind := .invalidCredentials, detail := "invalid credentials" } ∧
    Login 0 10 0 [{ id := 1, username := "amina", passwordHash := Hash 0 "pw" }] "amina" "x" =
      .error { kind := .invalidCredentials, detail := "invalid credentials" } ∧
    Login 0 10 0 [{ id := 1, username := "amina", passwordHash := Hash 0 "pw" }] "ghost" "x" =
      Login 0 10 0 [{ id := 1, username := "amina", passwordHash := Hash 0 "pw" }] "amina" "x" :=
  login_failure_uniformity 0 10 0
    [{ id := 1, username := "amina", passwordHash := Hash 0 "pw" }] "ghost" "x" "x"
    { id := 1, username := "amina", passwordHash := Hash 0 "pw" }
    (by decide) (by decide) (by decide)

/-- C1 (counterexample to the claim as stated): when the new password
equals the current one, ChangePassword succeeds and a subsequent Login with
the old password still succeeds — it does not fail with
InvalidCredentials. -/
theorem changePassword_old_password_login_counterexample :
    (runChangePassword 7 [{ id := 1, username := "amina", passwordHash := Hash 0 "pw" }]
        { Id := 1, CurrentPassword := "pw", NewPassword := "pw" }).1 = .ok () ∧
    (Login 0 10 0
        (runChangePassword 7 [{ id := 1, username := "amina", passwordHash := Hash 0 "pw" }]
          { Id := 1, CurrentPassword := "pw", NewPassword := "pw" }).2
        "amina" "pw").isOk = true := by
  exact ⟨rfl, rfl⟩

/-- C1 (amended): a ChangePassword whose current password fails
verification against the stored hash returns InvalidCredentials and the
stored state is unchanged — for every call, with no proviso; one whose
current password verifies succeeds, and when additionally the new password
differs from the current one and the user's username resolves to that user,
a subsequent Login with the new password succeeds and Login with the old
(current) password fails with InvalidCredentials. -/
theorem changePassword_atomicity (salt key ttl now : Nat) (store : List User)
    (dto : ChangeUserPasswordDto) (u : User)
    (hfind : store.find? (fun v => v.id == dto.Id) = some u) :
    (VerifyPassword dto.CurrentPassword u.passwordHash = false →
      runChangePassword salt store dto =
        (.error { kind := .invalidCredentials, detail := "invalid credentials" }, store)) ∧
    (VerifyPassword dto.CurrentPassword u.passwordHash = true →
      store.find? (fun v => v.username == u.username) = some u →
      dto.NewPassword ≠ dto.CurrentPassword →
      ∃ s, runChangePassword salt store dto = (.ok (), s) ∧
        Login key ttl now s u.username dto.NewPassword =
          .ok (u.id, Issue key ttl u.id now) ∧
        Login key ttl now s u.username dto.CurrentPassword =
          .error { kind := .invalidCredentials, detail := "invalid credentials" }) := by
  have hbeq : (u.id == dto.Id) = true := by
    have h := List.find?_some hfind
    exact h
  constructor
  · intro hv
    simp [runChangePassword, ChangePassword, hfind, hv]
  · intro hv hname hdiff
    refine ⟨store.map (fun v =>
        if v.id == dto.Id then { v with passwordHash := Hash salt dto.NewPassword }
        else v), ?_, ?_, ?_⟩
    · simp [runChangePassword, ChangePassword, hfind, hv]
    · have hfindmap : (store.map (fun v =>
          if v.id == dto.Id then { v with passwordHash := Hash salt dto.NewPassword }
          else v)).find? (fun v => v.username == u.username) =
          some { u with passwordHash := Hash salt dto.NewPassword } := by
        rw [List.find?_map]
        have hp : ((fun v => User.username v == u.username) ∘ (fun v =>
            if v.id == dto.Id then { v with passwordHash := Hash salt dto.NewPassword }
            else v)) = fun v => v.username == u.username := by
          funext v
          simp only [Function.comp_apply]
          by_cases h : (v.id == dto.Id) = true
          · rw [if_pos h]
          · rw [if_neg h]
        rw [hp, hname]
        simp only [Option.map_some']
        rw [if_pos hbeq]
      simp only [Login, hfindmap]
      simp [VerifyPassword, Hash]
    · have hfindmap : (store.map (fun v =>
          if v.id == dto.Id then { v with passwordHash := Hash salt dto.NewPassword }
          else v)).find? (fun v => v.username == u.username) =
          some { u with passwordHash := Hash salt dto.NewPassword } := by
        rw [List.find?_map]
        have hp : ((fun v => User.username v == u.username) ∘ (fun v =>
            if v.id == dto.Id then { v with passwordHash := Hash salt dto.NewPassword }
            else v)) = fun v => v.username == u.username := by
          funext v
          simp only [Function.comp_apply]
          by_cases h : (v.id == dto.Id) = true
          · rw [if_pos h]
          · rw [if_neg h]
        rw [hp, hname]
        simp only [Option.map_some']
        rw [if_pos hbeq]
      have hcn : (dto.CurrentPassword == dto.NewPassword) = false :=
        beq_eq_false_iff_ne.mpr (fun h => hdiff h.symm)
      simp only [Login, hfindmap]
      simp [VerifyPassword, Hash, hcn]

/-- Witness for C1 at a concrete input: user "amina" with password
"secret1", changing to "secret2" — every hypothesis and antecedent of the
success branch discharged concretely. -/
theorem changePassword_atomicity_witness :
    ∃ s, runChangePassword 7
        [{ id := 1, username := "amina", passwordHash := Hash 0 "secret1" }]
        { Id := 1, CurrentPassword := "secret1", NewPassword := "secret2" } = (.ok (), s) ∧
      Login 5 10 0 s "amina" "secret2" = .ok (1, Issue 5 10 1 0) ∧
      Login 5 10 0 s "amina" "secret1" =
        .error { kind := .invalidCredentials, detail := "invalid credentials" } :=
  (changePassword_atomicity 7 5 10 0
    [{ id := 1, username := "amina", passwordHash := Hash 0 "secret1" }]
    { Id := 1, CurrentPassword := "secret1", NewPassword := "secret2" }
    { id := 1, username := "amina", passwordHash := Hash 0 "secret1" }
    (by decide)).2 (by decide) (by decide) (by decide)

/-- C2: for every authenticated PUT /users/me and PATCH /users/me/password
request, the DTO handed to UserUsecases.Update respectively
UserUsecases.ChangePassword carries exactly the user id resolved from the
bearer token, whatever the request body contains — an id field in the JSON
body, present with any value or absent, never changes the target — and a
bind failure means the core operation is not called at all. -/
theorem me_routes_target_token_user (reqUserId : Nat) (ub : UpdateBody)
    (cb : ChangePasswordBody) (e1 e2 : AppError) :
    (updateMeDto reqUserId (.ok ub)).map (fun d => d.Id) = some reqUserId ∧
    (changeMyPasswordDto reqUserId (.ok cb)).map (fun d => d.Id) = some reqUserId ∧
    updateMeDto reqUserId (.error e1) = none ∧
    changeMyPasswordDto reqUserId (.error e2) = none :=
  ⟨rfl, rfl, rfl, rfl⟩

/-- C7: on an auth-required route, a request whose bearer token fails
verification is aborted with the mapped error status and the subsequent
handler — whichever core operation it would invoke — never runs, the
outcome being literally independent of it; a request whose token verifies
runs the handler on a context already carrying the resolved user id. -/
theorem authenticate_gate (key now : Nat) (withDetails : Bool) (token : List Nat)
    (c : Ctx) (h : Ctx → HOut) (hna : c.aborted = false) :
    (∀ e, VerifyToken key now token = .error e →
      runChain [authenticate key now withDetails token, h] c =
        .ok { c with aborted := true, userId := 0,
                     response := some (errorResponse e none withDetails) } ∧
      (errorResponse e none withDetails).Status = (parseError e).1) ∧
    (∀ uid, VerifyToken key now token = .ok uid →
      runChain [authenticate key now withDetails token, h] c =
        runChain [h] { c with userId := uid }) := by
  constructor
  · intro e he
    constructor
    · simp [runChain, hna, authenticate, he]
    · rfl
  · intro uid huid
    simp [runChain, hna, authenticate, huid]

/-- Witness for C7 at a concrete input: the empty Authorization token is
malformed, so the request is aborted with the mapped 401 response and the
handler (here one that would set userId to 99) never runs. -/
theorem authenticate_gate_witness :
    runChain [authenticate 0 0 false [], fun c => HOut.ok { c with userId := 99 }]
        { traceId := "t", userId := 0, aborted := false, response := none } =
      .ok { traceId := "t", userId := 0, aborted := true,
            response := some (errorResponse
              { kind := .malformedToken, detail := "malformed token" } none false) } ∧
    (errorResponse { kind := .malformedToken, detail := "malformed token" } none false).Status =
      (parseError { kind := .malformedToken, detail := "malformed token" }).1 :=
  (authenticate_gate 0 0 false []
      { traceId := "t", userId := 0, aborted := false, response := none }
      (fun c => HOut.ok { c with userId := 99 }) rfl).1
    { kind := .malformedToken, detail := "malformed token" } rfl

/-- C8: every response constructor of the router produces the
status/message/data envelope: okResponse is 200 with message "ok" and the
core result as data, internalErrorResponse is 500 with "internal error",
and errorResponse carries the status mapped from the error kind, the
error's detail as message exactly when details are enabled and the detail
is non-empty and the generic mapped message otherwise, with the data
passed through unchanged. -/
theorem response_envelope (d : Option CoreResult) (e : AppError) (w : Bool) :
    okResponse d = { Status := 200, Message := "ok", Data := d } ∧
    internalErrorResponse d = { Status := 500, Message := "internal error", Data := d } ∧
    errorResponse e d w =
      { Status := (parseError e).1,
        Message := if w && (e.detail != "") then e.detail else (parseError e).2,
        Data := d } :=
  ⟨rfl, rfl, rfl⟩

/-- C9: whenever the rest of the handler chain panics, the recovery
middleware aborts the request with status 500, message "internal error"
and null data — the same response for every panic value, with no
configuration consulted and no panic detail exposed. -/
theorem recover_shields (rest : Ctx → HOut) (c cp : Ctx) (v : String)
    (hp : rest c = .panicked v cp) :
    withRecover rest c =
      { cp with aborted := true,
                response := some { Status := 500, Message := "internal error",
                                   Data := none } } := by
  simp [withRecover, hp, internalErrorResponse]

/-- Witness for C9 at a concrete input: a handler chain that panics with
"boom" yields the aborted 500 internal-error response. -/
theorem recover_shields_witness :
    withRecover (fun c => HOut.panicked "boom" c)
        { traceId := "t", userId := 1, aborted := false, response := none } =
      { traceId := "t", userId := 1, aborted := true,
        response := some { Status := 500, Message := "internal error", Data := none } } :=
  recover_shields (fun c => HOut.panicked "boom" c)
    { traceId := "t", userId := 1, aborted := false, response := none }
    { traceId := "t", userId := 1, aborted := false, response := none } "boom" rfl

/-- C10: the trace id stored in the request context is the Trace-Id header
when that header is non-empty and the freshly generated UUID otherwise;
since a generated UUID is non-empty, every request ends up with a
non-empty trace id. -/
theorem trace_id_propagation (hdr uuid : String) (c : Ctx) (hu : uuid ≠ "") :
    (hdr ≠ "" → (traceMiddleware hdr uuid c).traceId = hdr) ∧
    (hdr = "" → (traceMiddleware hdr uuid c).traceId = uuid) ∧
    (traceMiddleware hdr uuid c).traceId ≠ "" := by
  by_cases h : hdr = ""
  · have hb : (hdr == "") = true := by
      rw [h]
      rfl
    refine ⟨fun hne => absurd h hne, fun _ => ?_, ?_⟩
    · simp [traceMiddleware, hb]
    · simp [traceMiddleware, hb]
      exact hu
  · have hb : (hdr == "") = false := beq_eq_false_iff_ne.mpr h
    refine ⟨fun _ => ?_, fun he => absurd he h, ?_⟩
    · simp [traceMiddleware, hb]
    · simp [traceMiddleware, hb]
      exact h

/-- Witness for C10 at concrete inputs: the client-supplied header "abc" is
propagated unchanged given the generated UUID "u-1". -/
theorem trace_id_propagation_witness :
    (("abc" : String) ≠ "" →
      (traceMiddleware "abc" "u-1"
        { traceId := "", userId := 0, aborted := false, response := none }).traceId = "abc") ∧
    (("abc" : String) = "" →
      (traceMiddleware "abc" "u-1"
        { traceId := "", userId := 0, aborted := false, response := none }).traceId = "u-1") ∧
    (traceMiddleware "abc" "u-1"
      { traceId := "", userId := 0, aborted := false, response := none }).traceId ≠ "" :=
  trace_id_propagation "abc" "u-1"
    { traceId := "", userId := 0, aborted := false, response := none } (by decide)

end HanafiFiqhQa
